import Mathlib

/-!
Verification of the risk-scoring and trend-analysis pipeline of
enhanced_tracker.py (Crash_Detector repository).

The Python source is shallowly embedded below.  Conventions used throughout:
* Python `float` values are modelled as `ℚ`; Python `Optional[float]` as `Option ℚ`.
* Python truthiness (`if x:` on an `Optional[float]`) is `truthyQ`:
  `None` and `0.0` are falsy.  Truthiness on an optional string is `truthyStr`
  (`None` and the empty string are falsy).
* Stored JSON metric values are strings in the source (`"154.0000"`,
  `"4.50%"`, `"DATA ERROR"`); they are modelled by `StoredVal`:
  `num q` is a numeric string that `float()` parses to `q`, `pct q` is a
  percent-suffixed string (compares unequal to `"DATA ERROR"` but `float()`
  raises on it), `err` is the literal sentinel string `"DATA ERROR"`.
* Python `round(x, n)` and `f"{x:.nf}"` are modelled over ℚ with decimal
  round-half-to-even (`roundHalfEven`); binary floating point is out of scope.
* I/O is modelled by oracles: each HTTP interaction outcome is an input
  (`FxOutcome`, `TreasuryOutcome`, `AIOutcome`), files are fields of `World`.
  A Python exception escaping a function is `Except.error ()`.
-/

namespace CrashDetector

/-- StressSignal: the closed set of signal strings the classifier can return. -/
inductive Signal where
  | NORMAL
  | RISING_STRESS
  | HIGH_STRESS
  | HIGH_STRESS_HIGH_VOLATILITY
  | CRITICAL_SHOCK
  | DATA_ERROR
deriving DecidableEq

/-- Risk levels of the composite assessment. -/
inductive Level where
  | UNKNOWN
  | LOW
  | MODERATE
  | ELEVATED
  | CRITICAL
deriving DecidableEq

/-- Stored metric value as serialized to JSON by the source (see module docstring). -/
inductive StoredVal where
  | num (q : ℚ)
  | pct (q : ℚ)
  | err
deriving DecidableEq

/-- One entry of the `metrics` array: name, stored value, signal, and the
stored `volatility_24h` field (`none` models both `"N/A"` and an absent key). -/
structure Metric where
  name : String
  value : StoredVal
  signal : Signal
  volatility_24h : Option ℚ
deriving DecidableEq

/-- Result of calculate_composite_risk_score. -/
structure RiskAssessment where
  score : ℚ
  level : Level
  color : String
deriving DecidableEq

/-- The ai_insights pair. -/
structure Insights where
  stock_picks : String
  tasi_opportunities : String
deriving DecidableEq

/-- The final_data object written to data.json and appended to history. -/
structure FinalData where
  last_update : String
  target_date : String
  days_remaining : ℤ
  risk_assessment : RiskAssessment
  metrics : List Metric
  ai_insights : Insights
deriving DecidableEq

/-- Python truthiness of an Optional[float]: None and 0.0 are falsy. -/
def truthyQ : Option ℚ → Bool
  | none => false
  | some v => v != 0

/-- Python truthiness of an optional string: None and the empty string are falsy. -/
def truthyStr : Option String → Bool
  | none => false
  | some s => s != ""

/-- Round-half-to-even to an integer, the rounding used by Python round()
and by format strings (modelled over exact rationals). -/
def roundHalfEven (q : ℚ) : ℤ :=
  let f := ⌊q⌋
  if q - f < 1/2 then f
  else if q - f > 1/2 then f + 1
  else if f % 2 = 0 then f else f + 1

/-- Python round(x, 1). -/
def round1 (q : ℚ) : ℚ := (roundHalfEven (q * 10) : ℚ) / 10

/-- The numeric content of a Python format f-string with four decimals. -/
def fmt4 (q : ℚ) : ℚ := (roundHalfEven (q * 10000) : ℚ) / 10000

/-- The numeric content of a Python format f-string with two decimals. -/
def fmt2 (q : ℚ) : ℚ := (roundHalfEven (q * 100) : ℚ) / 100

/-- Stress threshold configuration constants of the source. -/
def JPY_STRESS_THRESHOLD : ℚ := 155

/-- JPY_CRITICAL_THRESHOLD = 160.0. -/
def JPY_CRITICAL_THRESHOLD : ℚ := 160

/-- CNH_STRESS_THRESHOLD = 7.3. -/
def CNH_STRESS_THRESHOLD : ℚ := 73/10

/-- CNH_CRITICAL_THRESHOLD = 7.5. -/
def CNH_CRITICAL_THRESHOLD : ℚ := 15/2

/-- MOVE_PROXY_HIGH = 60.0. -/
def MOVE_PROXY_HIGH : ℚ := 60

/-- MOVE_PROXY_CRITICAL = 80.0. -/
def MOVE_PROXY_CRITICAL : ℚ := 80

/-- JPY_VOLATILITY_THRESHOLD = 2.0. -/
def JPY_VOLATILITY_THRESHOLD : ℚ := 2

/-- determine_signal of enhanced_tracker.py.  The Python body is a sequence
of early returns; it is linearized here as a priority if-chain.  The
volatility gate `if volatility and volatility >= JPY_VOLATILITY_THRESHOLD`
uses truthiness, then compares the (present) value; inside the gate, a value
below JPY_STRESS_THRESHOLD falls through to the ungated ladder.
Literals: 145.0, 7.15 (= 143/20), 40.0, 5.5 (= 11/2), 5.0, 4.5 (= 9/2). -/
def determine_signal (metric_name : String) (value : Option ℚ)
    (volatility : Option ℚ) : Signal :=
  match value with
  | none => Signal.DATA_ERROR
  | some v =>
    if metric_name = "USD/JPY Exchange Rate" then
      if truthyQ volatility = true ∧ volatility.getD 0 ≥ JPY_VOLATILITY_THRESHOLD
          ∧ v ≥ JPY_CRITICAL_THRESHOLD then Signal.CRITICAL_SHOCK
      else if truthyQ volatility = true ∧ volatility.getD 0 ≥ JPY_VOLATILITY_THRESHOLD
          ∧ v ≥ JPY_STRESS_THRESHOLD then Signal.HIGH_STRESS_HIGH_VOLATILITY
      else if v ≥ JPY_CRITICAL_THRESHOLD then Signal.CRITICAL_SHOCK
      else if v ≥ JPY_STRESS_THRESHOLD then Signal.HIGH_STRESS
      else if v > 145 then Signal.RISING_STRESS
      else Signal.NORMAL
    else if metric_name = "USD/CNH (Offshore Yuan) Value" then
      if v ≥ CNH_CRITICAL_THRESHOLD then Signal.CRITICAL_SHOCK
      else if v ≥ CNH_STRESS_THRESHOLD then Signal.HIGH_STRESS
      else if v > 143/20 then Signal.RISING_STRESS
      else Signal.NORMAL
    else if metric_name = "MOVE Index Volatility (Proxy)" then
      if v ≥ MOVE_PROXY_CRITICAL then Signal.CRITICAL_SHOCK
      else if v ≥ MOVE_PROXY_HIGH then Signal.HIGH_STRESS
      else if v > 40 then Signal.RISING_STRESS
      else Signal.NORMAL
    else if metric_name = "10-Year Treasury Yield" then
      if v ≥ 11/2 then Signal.CRITICAL_SHOCK
      else if v ≥ 5 then Signal.HIGH_STRESS
      else if v ≥ 9/2 then Signal.RISING_STRESS
      else Signal.NORMAL
    else Signal.NORMAL

/-- Severity weight table of calculate_composite_risk_score (the Python
dict lookup `weights.get(signal, 0)` is total on the closed signal set). -/
def weights : Signal → ℚ
  | Signal.CRITICAL_SHOCK => 100
  | Signal.HIGH_STRESS_HIGH_VOLATILITY => 80
  | Signal.HIGH_STRESS => 60
  | Signal.RISING_STRESS => 30
  | Signal.NORMAL => 0
  | Signal.DATA_ERROR => 0

/-- calculate_composite_risk_score of enhanced_tracker.py.  The two loop
accumulators `score` and `total_weight` are folds; `round(avg_score, 1)`
is `round1`. -/
def calculate_composite_risk_score (metrics : List Metric) : RiskAssessment :=
  let score : ℚ := List.foldl (fun acc m => acc + weights m.signal) 0 metrics
  let total_weight : ℕ :=
    List.foldl (fun acc m => acc + (if m.signal ≠ Signal.DATA_ERROR then 1 else 0)) 0 metrics
  if total_weight = 0 then ⟨0, Level.UNKNOWN, "#6c757d"⟩
  else
    let avg_score := score / (total_weight : ℚ)
    if avg_score ≥ 70 then ⟨round1 avg_score, Level.CRITICAL, "#dc3545"⟩
    else if avg_score ≥ 45 then ⟨round1 avg_score, Level.ELEVATED, "#ffc107"⟩
    else if avg_score ≥ 20 then ⟨round1 avg_score, Level.MODERATE, "#fd7e14"⟩
    else ⟨round1 avg_score, Level.LOW, "#28a745"⟩

/-- Inner loop of calculate_volatility over one history entry's metrics:
the first metric whose name matches and whose stored value passes the
`!= "DATA ERROR"` test and parses via float() assigns `yesterday` and
breaks; a parse failure does `continue`. -/
def entryMatch (ms : List Metric) (metric_name : String) : Option ℚ :=
  ms.findSome? (fun m =>
    if m.name = metric_name ∧ m.value ≠ StoredVal.err then
      match m.value with
      | StoredVal.num q => some q
      | StoredVal.pct _ => none
      | StoredVal.err => none
    else none)

/-- Outer loop of calculate_volatility: entries are visited newest-first
(the caller passes `history.reverse`); `yesterday` is the carried mutable
variable.  The source's `if yesterday: break` is Python truthiness, so a
matched value of 0.0 does not break the scan. -/
def volScan (metric_name : String) : List FinalData → Option ℚ → Option ℚ
  | [], yesterday => yesterday
  | entry :: rest, yesterday =>
    let y := match entryMatch entry.metrics metric_name with
             | some v => some v
             | none => yesterday
    if truthyQ y then y else volScan metric_name rest y

/-- calculate_volatility of enhanced_tracker.py.  The guard
`if not history or current_value is None: return None` is split into the
two cases; the final `if yesterday: return abs(...)` is again truthiness. -/
def calculate_volatility (current_value : Option ℚ) (history : List FinalData)
    (metric_name : String) : Option ℚ :=
  match current_value with
  | none => none
  | some c =>
    if history.isEmpty then none
    else
      match volScan metric_name history.reverse none with
      | some y => if y = 0 then none else some (abs (c - y))
      | none => none

/-- Outcome of one HTTP attempt inside fetch_fx_rate:
`reqError` is any requests.exceptions.RequestException (connection error,
raise_for_status, and — in current requests — an unparseable JSON body);
`note` is an API rate-limit payload (a `Note` key); `errMsg` is an
`Error Message` payload; `missingKey` is a payload without the exchange-rate
key; `rate b q` is a payload carrying the rate field, with `b` telling
whether `float()` can parse it (to `q`). -/
inductive FxOutcome where
  | reqError
  | note
  | errMsg
  | missingKey
  | rate (parseable : Bool) (q : ℚ)
deriving DecidableEq

/-- Retry loop of fetch_fx_rate (max_retries = 3).  Only `reqError` is
caught and retried; after the last attempt the loop falls through and the
function returns None.  An unparseable rate field makes `float()` raise a
ValueError that no except clause catches: `Except.error ()`. -/
def fetchFxLoop (outcomes : List FxOutcome) : ℕ → Except Unit (Option ℚ)
  | 0 => Except.ok none
  | n + 1 =>
    match outcomes with
    | [] => Except.ok none
    | o :: rest =>
      match o with
      | FxOutcome.reqError => fetchFxLoop rest n
      | FxOutcome.note => Except.ok none
      | FxOutcome.errMsg => Except.ok none
      | FxOutcome.missingKey => Except.ok none
      | FxOutcome.rate true q => Except.ok (some q)
      | FxOutcome.rate false _ => Except.error ()

/-- fetch_fx_rate of enhanced_tracker.py, as a function of the oracle list
of per-attempt HTTP outcomes. -/
def fetch_fx_rate (outcomes : List FxOutcome) : Except Unit (Option ℚ) :=
  fetchFxLoop outcomes 3

/-- Outcome of the single HTTP attempt inside fetch_treasury_yield_10y:
any exception (network, JSON body, unparseable value field) is caught by
its blanket `except Exception`; `noData` is a payload without a non-empty
`data` array; `value b q` is a payload whose latest value field parses
(`b = true`, to `q`) or fails to parse (`b = false`). -/
inductive TreasuryOutcome where
  | reqError
  | noData
  | value (parseable : Bool) (q : ℚ)
deriving DecidableEq

/-- fetch_treasury_yield_10y of enhanced_tracker.py.  Every failure path
returns None; no exception escapes. -/
def fetch_treasury_yield_10y : TreasuryOutcome → Option ℚ
  | TreasuryOutcome.reqError => none
  | TreasuryOutcome.noData => none
  | TreasuryOutcome.value true q => some q
  | TreasuryOutcome.value false _ => none

/-- A Python exception as observed by the except branch of
generate_ai_insights: the four substring tests the source performs on
str(e), plus the 30-character excerpt used by the generic message. -/
structure PyExn where
  has401 : Bool
  has429 : Bool
  hasExpectingValue : Bool
  hasJSONWord : Bool
  text30 : String
deriving DecidableEq

/-- The ValueError the source raises when no JSON object is found in the
model output: str(e) = "Could not extract JSON from AI response", which
contains the word JSON but none of "401", "429", "Expecting value". -/
def noJsonValueError : PyExn :=
  ⟨false, false, false, true, "Could not extract JSON from AI"⟩

/-- Except-branch categorization of generate_ai_insights. -/
def categorize_ai_error (e : PyExn) : String :=
  if e.has401 = true then "AI Configuration Error: Invalid API Key (401)"
  else if e.has429 = true then "AI Busy: Rate Limit Exceeded (429)"
  else if e.hasExpectingValue = true ∨ e.hasJSONWord = true then
    "AI Error: Response Parsing Failed"
  else "AI Analysis Failed: " ++ e.text30 ++ "..."

/-- Outcome of the OpenRouter interaction in generate_ai_insights:
`success stock tasi` means a JSON object was found in the content and
parsed, with the two optional keys; `noJsonFound` means the regex found no
JSON object in the content (the source then raises and catches its own
ValueError); `exn e` is any other exception (HTTP error, body decode
error, json.loads failure). -/
inductive AIOutcome where
  | success (stock tasi : Option String)
  | noJsonFound
  | exn (e : PyExn)
deriving DecidableEq

/-- generate_ai_insights of enhanced_tracker.py.  The metrics argument only
feeds the prompt and does not influence the returned fields. -/
def generate_ai_insights (metrics : List Metric) (openrouter_key : Option String)
    (outcome : AIOutcome) : Insights :=
  if truthyStr openrouter_key then
    match outcome with
    | AIOutcome.success stock tasi =>
      ⟨stock.getD "Analysis Data Missing", tasi.getD "Analysis Data Missing"⟩
    | AIOutcome.noJsonFound =>
      let ui := categorize_ai_error noJsonValueError
      ⟨ui, ui⟩
    | AIOutcome.exn e =>
      let ui := categorize_ai_error e
      ⟨ui, ui⟩
  else
    ⟨"AI Analysis Unavailable (Missing API Key)",
     "AI Analysis Unavailable (Missing API Key)"⟩

/-- save_historical_data of enhanced_tracker.py: `history = history[-30:]`
before writing.  Polymorphic because the Python list is untyped. -/
def save_historical_data {α : Type} (history : List α) : List α :=
  history.drop (history.length - 30)

/-- The new_metrics array literal of update_tracing_data.  Each value field
is `f"{x:.4f}" if x else "DATA ERROR"` (truthiness: a fetched 0.0 stores the
error sentinel), the treasury value carries a percent suffix, and the JPY
volatility field is `f"{v:.2f}" if v else "N/A"`. -/
def new_metrics (usd_jpy usd_cnh move_proxy treasury_10y jpy_volatility : Option ℚ) :
    List Metric :=
  [⟨"USD/JPY Exchange Rate",
    if truthyQ usd_jpy then StoredVal.num (fmt4 (usd_jpy.getD 0)) else StoredVal.err,
    determine_signal "USD/JPY Exchange Rate" usd_jpy jpy_volatility,
    if truthyQ jpy_volatility then some (fmt2 (jpy_volatility.getD 0)) else none⟩,
   ⟨"USD/CNH (Offshore Yuan) Value",
    if truthyQ usd_cnh then StoredVal.num (fmt4 (usd_cnh.getD 0)) else StoredVal.err,
    determine_signal "USD/CNH (Offshore Yuan) Value" usd_cnh none,
    none⟩,
   ⟨"MOVE Index Volatility (Proxy)",
    if truthyQ move_proxy then StoredVal.num (fmt2 (move_proxy.getD 0)) else StoredVal.err,
    determine_signal "MOVE Index Volatility (Proxy)" move_proxy none,
    none⟩,
   ⟨"10-Year Treasury Yield",
    if truthyQ treasury_10y then StoredVal.pct (fmt2 (treasury_10y.getD 0)) else StoredVal.err,
    determine_signal "10-Year Treasury Yield" treasury_10y none,
    none⟩]

/-- Oracle inputs of one cycle: configuration, per-fetch HTTP outcomes,
the OpenRouter outcome, whether the data.json write raises IOError, and
the clock readings. -/
structure Env where
  api_key : Option String
  usdjpy_outcomes : List FxOutcome
  usdcnh_outcomes : List FxOutcome
  treasury_outcome : TreasuryOutcome
  openrouter_key : Option String
  ai_outcome : AIOutcome
  data_write_fails : Bool
  now_utc : String
  days_remaining : ℤ
deriving DecidableEq

/-- Observable state touched by a cycle: the current-snapshot document,
the parsed history file, and a ghost counter of fetcher invocations. -/
structure World where
  data_file : Option FinalData
  history_file : List FinalData
  fetch_attempts : ℕ
deriving DecidableEq

/-- update_tracing_data of enhanced_tracker.py.  Absent (or empty) API key
aborts before anything else.  A ValueError escaping fetch_fx_rate crashes
the cycle (`Except.error`).  The data.json write failure is caught, after
which the history append still runs; the successful path performs the three
fetcher invocations (move_proxy is the hard-coded 45.0). -/
def update_tracing_data (env : Env) (w : World) : Except Unit World :=
  if truthyStr env.api_key then
    let history := w.history_file
    let move_proxy : Option ℚ := some 45
    match fetch_fx_rate env.usdjpy_outcomes, fetch_fx_rate env.usdcnh_outcomes with
    | Except.ok usd_jpy, Except.ok usd_cnh =>
      let treasury_10y := fetch_treasury_yield_10y env.treasury_outcome
      let jpy_volatility :=
        if truthyQ usd_jpy then
          calculate_volatility usd_jpy history "USD/JPY Exchange Rate"
        else none
      let ms := new_metrics usd_jpy usd_cnh move_proxy treasury_10y jpy_volatility
      let risk_assessment := calculate_composite_risk_score ms
      let ai_insights := generate_ai_insights ms env.openrouter_key env.ai_outcome
      let final_data : FinalData :=
        ⟨env.now_utc, "2026-11-28", env.days_remaining, risk_assessment, ms, ai_insights⟩
      let data2 := if env.data_write_fails then w.data_file else some final_data
      Except.ok ⟨data2, save_historical_data (history ++ [final_data]), w.fetch_attempts + 3⟩
    | Except.error e, _ => Except.error e
    | _, Except.error e => Except.error e
  else
    Except.ok w

/-! Spec-side definitions, written from the specification's words, used to
compare the code against the claimed formulas. -/

/-- Severity weights exactly as the specification lists them. -/
def specWeight : Signal → ℚ
  | Signal.CRITICAL_SHOCK => 100
  | Signal.HIGH_STRESS_HIGH_VOLATILITY => 80
  | Signal.HIGH_STRESS => 60
  | Signal.RISING_STRESS => 30
  | Signal.NORMAL => 0
  | Signal.DATA_ERROR => 0

/-- Sum of the per-signal weights of a metrics sequence (spec formula numerator). -/
def specWeightSum : List Metric → ℚ
  | [] => 0
  | m :: ms => specWeight m.signal + specWeightSum ms

/-- Count of metrics whose signal is not DATA_ERROR (spec formula divisor). -/
def specNonErrorCount : List Metric → ℕ
  | [] => 0
  | m :: ms => (if m.signal ≠ Signal.DATA_ERROR then 1 else 0) + specNonErrorCount ms

/-- Level tiering by average exactly as the specification states it. -/
def specTier (avg : ℚ) : Level :=
  if avg ≥ 70 then Level.CRITICAL
  else if avg ≥ 45 then Level.ELEVATED
  else if avg ≥ 20 then Level.MODERATE
  else Level.LOW

lemma weights_eq_specWeight (s : Signal) : weights s = specWeight s := by
  cases s <;> rfl

lemma foldl_weights (l : List Metric) (a : ℚ) :
    List.foldl (fun acc m => acc + weights m.signal) a l = a + specWeightSum l := by
  induction l generalizing a with
  | nil => simp [specWeightSum]
  | cons m ms ih =>
    rw [List.foldl_cons, ih, weights_eq_specWeight]
    simp only [specWeightSum]
    ring

lemma foldl_count (l : List Metric) (a : ℕ) :
    List.foldl (fun acc m => acc + (if m.signal ≠ Signal.DATA_ERROR then 1 else 0)) a l
      = a + specNonErrorCount l := by
  induction l generalizing a with
  | nil => simp [specNonErrorCount]
  | cons m ms ih =>
    simp only [List.foldl_cons, specNonErrorCount, ih]
    omega

/-- A metric record carrying only a signal, for concrete score inputs
(the scorer reads nothing but the signal field). -/
def sigMetric (s : Signal) : Metric := ⟨"", StoredVal.err, s, none⟩

/-- Concrete input refuting the exact-mean reading of the score field:
three counted metrics with weight sum 100. -/
def exC1 : List Metric :=
  [sigMetric Signal.CRITICAL_SHOCK, sigMetric Signal.NORMAL,
   sigMetric Signal.NORMAL, sigMetric Signal.DATA_ERROR]

/-- The specification's four-metric example [CRITICAL_SHOCK, NORMAL, NORMAL, NORMAL]. -/
def exC2 : List Metric :=
  [sigMetric Signal.CRITICAL_SHOCK, sigMetric Signal.NORMAL,
   sigMetric Signal.NORMAL, sigMetric Signal.NORMAL]

lemma roundHalfEven_eq_down (q : ℚ) (n : ℤ) (h1 : (n : ℚ) ≤ q) (h2 : q < n + 1)
    (h3 : q - n < 1/2) : roundHalfEven q = n := by
  have hf : ⌊q⌋ = n := Int.floor_eq_iff.mpr ⟨h1, h2⟩
  simp only [roundHalfEven, hf]
  rw [if_pos h3]

lemma roundHalfEven_eq_up (q : ℚ) (n : ℤ) (h1 : (n : ℚ) ≤ q) (h2 : q < n + 1)
    (h3 : 1/2 < q - n) : roundHalfEven q = n + 1 := by
  have hf : ⌊q⌋ = n := Int.floor_eq_iff.mpr ⟨h1, h2⟩
  simp only [roundHalfEven, hf]
  rw [if_neg (by linarith), if_pos h3]

/-- Claim C1 amended theorem: the composite score field equals the unweighted
mean of per-signal weights over non-DATA_ERROR metrics ROUNDED TO ONE DECIMAL
PLACE (Python round), and the level is UNKNOWN exactly when every metric's
signal is DATA_ERROR, in which case the score is 0. -/
theorem claim_C1_theorem (metrics : List Metric) :
    (calculate_composite_risk_score metrics).score =
      (if specNonErrorCount metrics = 0 then 0
       else round1 (specWeightSum metrics / (specNonErrorCount metrics : ℚ))) ∧
    ((calculate_composite_risk_score metrics).level = Level.UNKNOWN ↔
      specNonErrorCount metrics = 0) := by
  have hs := foldl_weights metrics 0
  have hc := foldl_count metrics 0
  rw [zero_add] at hs hc
  simp only [calculate_composite_risk_score]
  rw [hs, hc]
  by_cases h : specNonErrorCount metrics = 0
  · rw [h]
    simp
  · simp only [if_neg h]
    constructor
    · split_ifs <;> rfl
    · split_ifs <;> simp [h]

/-- Claim C1 counterexample: for four metrics with signals
[CRITICAL_SHOCK, NORMAL, NORMAL, DATA_ERROR] the divisor is 3 and the mean is
100/3, but the returned score is round(100/3, 1) = 33.3 ≠ 100/3, so the score
is not always equal to the sum of weights divided by the non-DATA_ERROR count. -/
theorem claim_C1_counterexample :
    (calculate_composite_risk_score exC1).score ≠
      specWeightSum exC1 / (specNonErrorCount exC1 : ℚ) := by
  have hsum : specWeightSum exC1 = 100 := by
    norm_num [exC1, specWeightSum, specWeight, sigMetric]
  have hcnt : specNonErrorCount exC1 = 3 := by decide
  have hfold1 : List.foldl (fun acc m => acc + weights m.signal) 0 exC1 = 100 := by
    norm_num [exC1, List.foldl, weights, sigMetric]
  have hfold2 : List.foldl
      (fun acc m => acc + (if m.signal ≠ Signal.DATA_ERROR then 1 else 0)) 0 exC1 = 3 := by
    decide
  have hscore : (calculate_composite_risk_score exC1).score = 333/10 := by
    simp only [calculate_composite_risk_score, hfold1, hfold2]
    have h70 : ¬((100 : ℚ)/(3:ℕ) ≥ 70) := by norm_num
    have h45 : ¬((100 : ℚ)/(3:ℕ) ≥ 45) := by norm_num
    have h20 : ((100 : ℚ)/(3:ℕ) ≥ 20) := by norm_num
    rw [if_neg (by norm_num), if_neg h70, if_neg h45, if_pos h20]
    show round1 ((100 : ℚ)/(3:ℕ)) = 333/10
    have hq : (100 : ℚ)/(3:ℕ) * 10 = 1000/3 := by push_cast; ring
    rw [round1, hq, roundHalfEven_eq_down (1000/3) 333 (by norm_num) (by norm_num) (by norm_num)]
    norm_num
  rw [hscore, hsum, hcnt]
  norm_num

/-- Claim C2 theorem: with at least one non-DATA_ERROR signal, the level is
tiered from the (unrounded) average: at least 70 CRITICAL, at least 45
ELEVATED, at least 20 MODERATE, else LOW. -/
theorem claim_C2_theorem (metrics : List Metric)
    (h : specNonErrorCount metrics ≠ 0) :
    (calculate_composite_risk_score metrics).level =
      specTier (specWeightSum metrics / (specNonErrorCount metrics : ℚ)) := by
  have hs := foldl_weights metrics 0
  have hc := foldl_count metrics 0
  rw [zero_add] at hs hc
  simp only [calculate_composite_risk_score, hs, hc, specTier]
  rw [if_neg h]
  split_ifs <;> rfl

/-- Claim C2 witness: the four-metric example [CRITICAL_SHOCK, NORMAL, NORMAL,
NORMAL] has average 25.0 and the composite level MODERATE. -/
theorem claim_C2_witness :
    specNonErrorCount exC2 ≠ 0 ∧
    specWeightSum exC2 / (specNonErrorCount exC2 : ℚ) = 25 ∧
    (calculate_composite_risk_score exC2).level = Level.MODERATE := by
  have h0 : specNonErrorCount exC2 ≠ 0 := by decide
  have h1 : specWeightSum exC2 / (specNonErrorCount exC2 : ℚ) = 25 := by
    have : specWeightSum exC2 = 100 := by
      norm_num [exC2, specWeightSum, specWeight, sigMetric]
    have hc : specNonErrorCount exC2 = 4 := by decide
    rw [this, hc]
    norm_num
  refine ⟨h0, h1, ?_⟩
  rw [claim_C2_theorem exC2 h0, h1]
  norm_num [specTier]

/-- Claim C5 theorem: classifying an absent value yields DATA_ERROR for any
metric name and any volatility argument. -/
theorem claim_C5_theorem (metric_name : String) (volatility : Option ℚ) :
    determine_signal metric_name none volatility = Signal.DATA_ERROR := rfl

/-- Claim C4 theorem: for the USD/JPY metric, value 159.9 with any supplied
volatility below 2.0 classifies as HIGH_STRESS, and any value at least 160.0
classifies as CRITICAL_SHOCK for every volatility argument. -/
theorem claim_C4_theorem :
    (∀ v : ℚ, v < 2 →
      determine_signal "USD/JPY Exchange Rate" (some (1599/10)) (some v) =
        Signal.HIGH_STRESS) ∧
    (∀ x : ℚ, 160 ≤ x → ∀ vol : Option ℚ,
      determine_signal "USD/JPY Exchange Rate" (some x) vol =
        Signal.CRITICAL_SHOCK) := by
  constructor
  · intro v hv
    simp only [determine_signal, JPY_VOLATILITY_THRESHOLD, JPY_CRITICAL_THRESHOLD,
      JPY_STRESS_THRESHOLD, truthyQ, Option.getD_some, if_true]
    rw [if_neg (by rintro ⟨-, h2, -⟩; exact absurd h2 (not_le.mpr hv)),
      if_neg (by rintro ⟨-, h2, -⟩; exact absurd h2 (not_le.mpr hv)),
      if_neg (by norm_num), if_pos (by norm_num)]
  · intro x hx vol
    simp only [determine_signal, JPY_VOLATILITY_THRESHOLD, JPY_CRITICAL_THRESHOLD,
      JPY_STRESS_THRESHOLD, if_true]
    by_cases hg : truthyQ vol = true ∧ vol.getD 0 ≥ 2 ∧ x ≥ 160
    · rw [if_pos hg]
    · rw [if_neg hg,
        if_neg (by rintro ⟨h1, h2, -⟩; exact hg ⟨h1, h2, hx⟩),
        if_pos hx]

/-- Claim C4 witness: concrete instances of both parts, with volatility 1.0
below the gate and value 165.0 above the critical threshold. -/
theorem claim_C4_witness :
    (1 : ℚ) < 2 ∧ (160 : ℚ) ≤ 165 ∧
    determine_signal "USD/JPY Exchange Rate" (some (1599/10)) (some 1) =
      Signal.HIGH_STRESS ∧
    determine_signal "USD/JPY Exchange Rate" (some 165) (some 99) =
      Signal.CRITICAL_SHOCK :=
  ⟨by norm_num, by norm_num,
   claim_C4_theorem.1 1 (by norm_num),
   claim_C4_theorem.2 165 (by norm_num) (some 99)⟩

/-- A history entry holding the given metrics (the volatility lookup reads
nothing but the metrics array). -/
def mkFD (ms : List Metric) : FinalData :=
  ⟨"", "", 0, ⟨0, Level.UNKNOWN, ""⟩, ms, ⟨"", ""⟩⟩

/-- Spec-side lookup after amendment: the first entry, scanning the given
(already reversed, newest-first) history, holding a matching metric whose
stored value parses to a NONZERO number. -/
def firstValidPrior (entries : List FinalData) (metric_name : String) : Option ℚ :=
  entries.findSome? (fun e =>
    match entryMatch e.metrics metric_name with
    | some v => if v = 0 then none else some v
    | none => none)

/-- The specification's volatility example: History = [{JPY=150.0}, {JPY=152.0}]. -/
def exHistSpec : List FinalData :=
  [mkFD [⟨"USD/JPY Exchange Rate", StoredVal.num 150, Signal.NORMAL, none⟩],
   mkFD [⟨"USD/JPY Exchange Rate", StoredVal.num 152, Signal.NORMAL, none⟩]]

/-- History whose only matching stored value parses to 0.0. -/
def exHist0 : List FinalData :=
  [mkFD [⟨"USD/JPY Exchange Rate", StoredVal.num 0, Signal.NORMAL, none⟩]]

lemma truthyQ_none_false : truthyQ none = false := rfl

lemma volScan_post (metric_name : String) (c : ℚ) :
    ∀ (entries : List FinalData) (y0 : Option ℚ), truthyQ y0 = false →
      (match volScan metric_name entries y0 with
       | some y => if y = 0 then none else some (abs (c - y))
       | none => none) =
      (firstValidPrior entries metric_name).map (fun y => abs (c - y)) := by
  intro entries
  induction entries with
  | nil =>
    intro y0 h0
    cases y0 with
    | none => simp [volScan, firstValidPrior]
    | some v =>
      have hv : v = 0 := by
        simpa [truthyQ] using h0
      simp [volScan, firstValidPrior, hv]
  | cons e rest ih =>
    intro y0 h0
    simp only [volScan]
    cases hm : entryMatch e.metrics metric_name with
    | none =>
      simp only [h0, Bool.false_eq_true, if_false]
      rw [ih y0 h0]
      simp [firstValidPrior, List.findSome?_cons, hm]
    | some v =>
      by_cases hv : v = 0
      · subst hv
        have ht : truthyQ (some (0 : ℚ)) = false := by simp [truthyQ]
        simp only [ht, Bool.false_eq_true, if_false]
        rw [ih (some 0) ht]
        simp [firstValidPrior, List.findSome?_cons, hm]
      · have ht : truthyQ (some v) = true := by simp [truthyQ, hv]
        simp only [ht, if_true]
        simp [firstValidPrior, List.findSome?_cons, hm, hv]

/-- Claim C3 amended theorem: the scan stops at the most recent snapshot whose
matching metric's stored value parses to a NONZERO number and returns the
absolute difference with it; a matched value parsing to 0.0 never stops the
scan and never produces a result.  Absent current value, empty history, or no
such nonzero match give an absent result; the specification's concrete
example (most recent match 152.0, current 154.0) still yields 2.0. -/
theorem claim_C3_theorem :
    (∀ (history : List FinalData) (metric_name : String),
      calculate_volatility none history metric_name = none) ∧
    (∀ (c : ℚ) (history : List FinalData) (metric_name : String),
      calculate_volatility (some c) history metric_name =
        (firstValidPrior history.reverse metric_name).map (fun y => abs (c - y))) ∧
    calculate_volatility (some 154) exHistSpec "USD/JPY Exchange Rate" = some 2 := by
  have h2 : ∀ (c : ℚ) (history : List FinalData) (metric_name : String),
      calculate_volatility (some c) history metric_name =
        (firstValidPrior history.reverse metric_name).map (fun y => abs (c - y)) := by
    intro c history metric_name
    cases history with
    | nil => simp [calculate_volatility, firstValidPrior]
    | cons e rest =>
      simp only [calculate_volatility, List.isEmpty_cons, if_false, Bool.false_eq_true]
      exact volScan_post metric_name c (e :: rest).reverse none truthyQ_none_false
  refine ⟨fun history metric_name => rfl, h2, ?_⟩
  rw [h2]
  have : firstValidPrior exHistSpec.reverse "USD/JPY Exchange Rate" = some 152 := by
    simp [exHistSpec, firstValidPrior, entryMatch, mkFD, List.findSome?_cons]
  rw [this]
  show some (abs ((154 : ℚ) - 152)) = some 2
  rw [show (154 : ℚ) - 152 = 2 by norm_num, abs_of_nonneg (by norm_num : (0:ℚ) ≤ 2)]

/-- Claim C3 counterexample: a history whose most recent matching stored value
is the parseable number 0.0.  The claim predicts abs(154.0 - 0.0) = 154.0, but
the code's truthiness checks skip the match and return an absent result. -/
theorem claim_C3_counterexample :
    calculate_volatility (some 154) exHist0 "USD/JPY Exchange Rate" ≠
      some (abs ((154 : ℚ) - 0)) ∧
    calculate_volatility (some 154) exHist0 "USD/JPY Exchange Rate" = none := by
  have h : calculate_volatility (some 154) exHist0 "USD/JPY Exchange Rate" = none := by
    simp [calculate_volatility, exHist0, mkFD, volScan, entryMatch, truthyQ]
  exact ⟨by rw [h]; exact fun hc => Option.noConfusion hc, h⟩

/-- Claim C6 evaluation at the failing input: one fetch attempt whose HTTP
response carries the exchange-rate key with an unparseable value.  The
float() call raises a ValueError, which is not a requests RequestException
and so escapes fetch_fx_rate — the fetch raises to the snapshot assembler
instead of returning an absent value. -/
theorem claim_C6_theorem :
    fetch_fx_rate [FxOutcome.rate false 0] = Except.error () := rfl

/-- Claim C7 theorem: the persisted history is a suffix of the saved list of
length min 30; appending one snapshot to a 31-entry history trims to exactly
30 entries, drops from the oldest end, and keeps the new snapshot last. -/
theorem claim_C7_theorem {α : Type} (history : List α) (snap : α) :
    (save_historical_data history).length = min 30 history.length ∧
    save_historical_data history <:+ history ∧
    (history.length = 31 →
      save_historical_data (history ++ [snap]) = history.drop 2 ++ [snap] ∧
      (save_historical_data (history ++ [snap])).length = 30 ∧
      (save_historical_data (history ++ [snap])).getLast? = some snap) := by
  refine ⟨?_, List.drop_suffix _ _, ?_⟩
  · simp only [save_historical_data, List.length_drop]
    omega
  · intro h31
    have hlen : (history ++ [snap]).length = 32 := by
      simp [h31]
    have hdrop : save_historical_data (history ++ [snap]) =
        history.drop 2 ++ [snap] := by
      rw [save_historical_data, hlen]
      show (history ++ [snap]).drop 2 = history.drop 2 ++ [snap]
      exact List.drop_append_of_le_length (by omega)
    refine ⟨hdrop, ?_, ?_⟩
    · rw [hdrop]
      simp [h31]
    · rw [hdrop]
      exact List.getLast?_concat _

/-- Claim C7 witness: a concrete 31-entry history. -/
theorem claim_C7_witness :
    (List.range 31).length = 31 ∧
    save_historical_data (List.range 31 ++ [31]) = (List.range 31).drop 2 ++ [31] ∧
    (save_historical_data (List.range 31 ++ [31])).length = 30 ∧
    (save_historical_data (List.range 31 ++ [31])).getLast? = some 31 := by
  have h := (claim_C7_theorem (List.range 31) 31).2.2 (by simp)
  exact ⟨by simp, h.1, h.2.1, h.2.2⟩

/-- Claim C8 theorem: when the financial API credential is absent the cycle
aborts at once: the returned world is the input world unchanged (no fetch
counted, current-snapshot document and history untouched) and no error is
raised. -/
theorem claim_C8_theorem (env : Env) (w : World) (h : env.api_key = none) :
    update_tracing_data env w = Except.ok w := by
  simp only [update_tracing_data, h]
  rfl

/-- Environment with the financial API credential absent. -/
def exEnvC8 : Env :=
  ⟨none, [], [], TreasuryOutcome.noData, none, AIOutcome.noJsonFound, false, "", 0⟩

/-- A small world state for the cycle witnesses. -/
def exW : World := ⟨none, [], 0⟩

/-- Claim C8 witness: concrete run with the credential absent. -/
theorem claim_C8_witness :
    exEnvC8.api_key = none ∧ update_tracing_data exEnvC8 exW = Except.ok exW :=
  ⟨rfl, claim_C8_theorem exEnvC8 exW rfl⟩

/-- Claim C9 theorem: when the insight collaborator's text contains no
extractable JSON object (and the cycle otherwise proceeds: credential
present, fetches return, current-snapshot write succeeds), the cycle
completes without error, producing and persisting a snapshot whose two
insight fields both hold the parse-failure placeholder. -/
theorem claim_C9_theorem (env : Env) (w : World) (j c : Option ℚ)
    (hkey : truthyStr env.api_key = true)
    (hor : truthyStr env.openrouter_key = true)
    (hai : env.ai_outcome = AIOutcome.noJsonFound)
    (hwf : env.data_write_fails = false)
    (hj : fetch_fx_rate env.usdjpy_outcomes = Except.ok j)
    (hc : fetch_fx_rate env.usdcnh_outcomes = Except.ok c) :
    ∃ fd : FinalData,
      update_tracing_data env w =
        Except.ok ⟨some fd, save_historical_data (w.history_file ++ [fd]),
                   w.fetch_attempts + 3⟩ ∧
      fd.ai_insights.stock_picks = "AI Error: Response Parsing Failed" ∧
      fd.ai_insights.tasi_opportunities = "AI Error: Response Parsing Failed" := by
  simp only [update_tracing_data, hkey, hj, hc, hai, hwf, if_true, eq_self_iff_true,
    Bool.false_eq_true, if_false]
  refine ⟨_, rfl, ?_, ?_⟩ <;>
    simp [generate_ai_insights, hor, categorize_ai_error, noJsonValueError]

/-- Environment for the C9 witness: everything succeeds except that the model
output contains no JSON object. -/
def exEnvC9 : Env :=
  ⟨some "key", [FxOutcome.rate true 150], [FxOutcome.rate true 7],
   TreasuryOutcome.value true 4, some "orkey", AIOutcome.noJsonFound, false, "now", 10⟩

/-- Claim C9 witness: the concrete cycle still produces a snapshot with both
insight fields equal to the parse-failure placeholder. -/
theorem claim_C9_witness :
    ∃ fd : FinalData,
      update_tracing_data exEnvC9 exW =
        Except.ok ⟨some fd, save_historical_data (exW.history_file ++ [fd]),
                   exW.fetch_attempts + 3⟩ ∧
      fd.ai_insights.stock_picks = "AI Error: Response Parsing Failed" ∧
      fd.ai_insights.tasi_opportunities = "AI Error: Response Parsing Failed" :=
  claim_C9_theorem exEnvC9 exW (some 150) (some 7) rfl rfl rfl rfl rfl rfl

/-- Claim C10 theorem: if the JPY fetcher returns exactly 0.0, the assembled
first metric stores the "DATA ERROR" sentinel in its value field, while its
signal field is the classification of the numeric 0.0 — NORMAL, a non-error
signal that counts toward the composite-score divisor. -/
theorem claim_C10_theorem (usd_cnh treasury_10y jpy_volatility move_proxy : Option ℚ) :
    ∃ m : Metric,
      (new_metrics (some 0) usd_cnh move_proxy treasury_10y jpy_volatility).head? = some m ∧
      m.value = StoredVal.err ∧
      m.signal = determine_signal "USD/JPY Exchange Rate" (some 0) jpy_volatility ∧
      m.signal = Signal.NORMAL ∧
      m.signal ≠ Signal.DATA_ERROR := by
  have hsig : determine_signal "USD/JPY Exchange Rate" (some 0) jpy_volatility =
      Signal.NORMAL := by
    simp only [determine_signal, JPY_VOLATILITY_THRESHOLD, JPY_CRITICAL_THRESHOLD,
      JPY_STRESS_THRESHOLD, if_true]
    rw [if_neg (by rintro ⟨-, -, h⟩; norm_num at h),
        if_neg (by rintro ⟨-, -, h⟩; norm_num at h),
        if_neg (by norm_num), if_neg (by norm_num), if_neg (by norm_num)]
  refine ⟨_, rfl, ?_, rfl, hsig, ?_⟩
  · show (if truthyQ (some (0:ℚ)) = true then
        StoredVal.num (fmt4 ((some (0:ℚ)).getD 0)) else StoredVal.err) = StoredVal.err
    simp [truthyQ]
  · rw [hsig]
    simp

end CrashDetector
